import Mathlib

/-!
Shallow embedding of `src/server.js` (Weather-website backend): configuration
defaults, the email sanitizer, and the two HTTP handlers `GET /weather` and
`POST /subscribe`, together with theorems settling the specification claims.
-/

/-- JSON values, as produced by `JSON.parse` and consumed by `res.json`.
Numbers are modelled as integers (the documents handled here are integral). -/
inductive Json where
  | null : Json
  | bool : Bool → Json
  | num : Int → Json
  | str : String → Json
  | arr : List Json → Json
  | obj : List (String × Json) → Json

/-- An HTTP response as produced by `res.status(n).json(body)`. -/
structure HttpResponse where
  status : Nat
  body : Json

/-- JavaScript `env || default` on strings: an unset variable (`none`) and an
empty string are both falsy, so the default is used for either. -/
def jsOrString (env : Option String) (d : String) : String :=
  match env with
  | some v => if v = "" then d else v
  | none => d

/-- `const PORT = process.env.PORT || 3000` (server.js line 12): the value is
either the environment string (when set and non-empty) or the number 3000. -/
def PORT (env : Option String) : String ⊕ Nat :=
  match env with
  | some v => if v = "" then Sum.inr 3000 else Sum.inl v
  | none => Sum.inr 3000

/-- `const S3_BUCKET_NAME = process.env.S3_BUCKET_NAME || 'daily-weather-output-mscac'`
(server.js line 18). -/
def S3_BUCKET_NAME (env : Option String) : String :=
  jsOrString env "daily-weather-output-mscac"

/-- `const S3_REGION = process.env.AWS_REGION || 'us-east-2'` (server.js line 19). -/
def S3_REGION (env : Option String) : String :=
  jsOrString env "us-east-2"

/-- `const WEATHER_FILE_KEY = 'daily-data/prediction.json'` (server.js line 23). -/
def WEATHER_FILE_KEY : String := "daily-data/prediction.json"

/-- `const SUBSCRIPTIONS_PATH = 'subscribers/'` (server.js line 25). -/
def SUBSCRIPTIONS_PATH : String := "subscribers/"

/-- Outcome of `s3Client.send(GetObjectCommand)` followed by `streamToString`:
either the object's content decoded as a UTF-8 string, a thrown error whose
`name` is `'NoSuchKey'`, or any other thrown error carrying its `message`. -/
inductive S3GetResult where
  | success : String → S3GetResult
  | noSuchKey : S3GetResult
  | otherError : String → S3GetResult

/-- Outcome of `s3Client.send(PutObjectCommand)`: acknowledged, or a thrown
error carrying its `message`. -/
inductive S3PutResult where
  | success : S3PutResult
  | error : String → S3PutResult

/-- The `GET /weather` handler (server.js lines 62-93), parametrised by the
store's answer and by the behaviour of `JSON.parse` on the retrieved string.
A parse failure is a thrown `SyntaxError` (name not `'NoSuchKey'`), so it
lands in the generic 500 branch of the catch, like any other store error. -/
def getWeather (parseJson : String → Except String Json) (s3 : S3GetResult) :
    HttpResponse :=
  match s3 with
  | S3GetResult.success contentString =>
    match parseJson contentString with
    | Except.ok weatherData => ⟨200, weatherData⟩
    | Except.error msg =>
      ⟨500, Json.obj [("message", Json.str "Failed to fetch weather data."),
                      ("error", Json.str msg)]⟩
  | S3GetResult.noSuchKey =>
    ⟨404, Json.obj [("message", Json.str "Weather prediction file not found.")]⟩
  | S3GetResult.otherError msg =>
    ⟨500, Json.obj [("message", Json.str "Failed to fetch weather data."),
                    ("error", Json.str msg)]⟩

/-- The character class of the regex `[^a-zA-Z0-9-_.@]` (server.js line 109):
`true` exactly on the characters the sanitizer keeps. -/
def isAllowedChar (c : Char) : Bool :=
  ('a' ≤ c && c ≤ 'z') || ('A' ≤ c && c ≤ 'Z') || ('0' ≤ c && c ≤ '9') ||
  c == '-' || c == '_' || c == '.' || c == '@'

/-- `email.replace(/[^a-zA-Z0-9-_.@]/g, '')` (server.js line 109): delete every
character outside the allowed class, keeping the rest in order. -/
def sanitize (e : String) : String :=
  String.mk (e.data.filter isAllowedChar)

/-- `email.includes('@')` (server.js line 102). -/
def includesAt (e : String) : Bool :=
  e.data.contains '@'

/-- The validation test of server.js line 102, `!email || !email.includes('@')`,
phrased positively: the request passes validation iff the `email` field is
present, non-empty (JS falsiness of the empty string) and contains `@`. -/
def validEmail (email : Option String) : Bool :=
  match email with
  | none => false
  | some e => !(e = "") && includesAt e

/-- The parameters of the issued `PutObjectCommand` (server.js lines 114-119). -/
structure PutRequest where
  bucket : String
  key : String
  body : String
  contentType : String

/-- The `POST /subscribe` handler (server.js lines 99-132), parametrised by the
store's answer to the write. The second component records the write that was
issued (`none` when validation fails before any store call). -/
def subscribe (bucket : String) (email : Option String) (put : S3PutResult) :
    HttpResponse × Option PutRequest :=
  match email with
  | none =>
    (⟨400, Json.obj [("message", Json.str "Invalid email address provided.")]⟩, none)
  | some e =>
    if e = "" || !(includesAt e) then
      (⟨400, Json.obj [("message", Json.str "Invalid email address provided.")]⟩, none)
    else
      let s3Key := SUBSCRIPTIONS_PATH ++ sanitize e
      let putReq : PutRequest := ⟨bucket, s3Key, e, "text/plain"⟩
      match put with
      | S3PutResult.success =>
        (⟨201, Json.obj [("message", Json.str "Subscription successful!")]⟩, some putReq)
      | S3PutResult.error msg =>
        (⟨500, Json.obj [("message", Json.str "Failed to save subscription."),
                         ("error", Json.str msg)]⟩, some putReq)

example : sanitize "weird!!@x.com" = "weird@x.com" := by decide
example : validEmail (some "not-an-email") = false := by decide
example : validEmail (some "a@b.com") = true := by decide

/-- A string containing `@` is non-empty, so it passes the falsiness half of the
validation test whenever it passes the `includes` half. -/
theorem includesAt_ne_empty (e : String) (h : includesAt e = true) : e ≠ "" := by
  intro he
  rw [he] at h
  exact absurd h (by decide)

/-- Filtering a character list by the allowed class twice is the same as once. -/
theorem filter_allowed_idem (l : List Char) :
    (l.filter isAllowedChar).filter isAllowedChar = l.filter isAllowedChar := by
  induction l with
  | nil => rfl
  | cons a l ih =>
    by_cases h : isAllowedChar a = true <;>
      simp [List.filter_cons, h, ih]

/-- The sanitizer keeps `@`, so a validated email sanitizes to a string still
containing `@`. -/
theorem at_mem_sanitize (e : String) (h : includesAt e = true) :
    '@' ∈ (sanitize e).data := by
  have hmem : '@' ∈ e.data := by
    simpa [includesAt] using h
  exact List.mem_filter.mpr ⟨hmem, by decide⟩

/-- A validated email sanitizes to a non-empty string. -/
theorem sanitize_ne_empty (e : String) (h : includesAt e = true) :
    sanitize e ≠ "" := by
  intro hemp
  have : (sanitize e).data = [] := by
    rw [hemp]
  have hat := at_mem_sanitize e h
  rw [this] at hat
  exact absurd hat (by simp)

/-- No key under the `subscribers/` prefix is the weather key: the two differ
already in their first character. -/
theorem sub_key_ne_weather (x : String) :
    SUBSCRIPTIONS_PATH ++ x ≠ WEATHER_FILE_KEY := by
  intro h
  obtain ⟨xl⟩ := x
  have hd : (SUBSCRIPTIONS_PATH ++ String.mk xl).data.head? =
      WEATHER_FILE_KEY.data.head? := by rw [h]
  have h1 : (SUBSCRIPTIONS_PATH ++ String.mk xl).data.head? = some 's' := rfl
  have h2 : WEATHER_FILE_KEY.data.head? = some 'd' := rfl
  rw [h1, h2] at hd
  exact absurd hd (by decide)

/-- A miniature stand-in for `JSON.parse` used only to instantiate witnesses:
it recognises the single document of the spec's concrete scenario and fails,
with the message of a thrown `SyntaxError`, on everything else. -/
def parseScenario (s : String) : Except String Json :=
  if s = "\x7b\"weatherCode\":2\x7d" then
    Except.ok (Json.obj [("weatherCode", Json.num 2)])
  else
    Except.error "Unexpected token"

/-- Claim C1: for every valid JSON document stored at the weather key — a
stored string that `JSON.parse` parses to the document `j` — `GET /weather`
returns status 200 with the parsed document `j` itself as the response body. -/
theorem weather_ok_of_stored_json (parseJson : String → Except String Json)
    (s : String) (j : Json) (h : parseJson s = Except.ok j) :
    getWeather parseJson (S3GetResult.success s) = ⟨200, j⟩ := by
  simp [getWeather, h]

theorem weather_ok_of_stored_json_witness :
    parseScenario "\x7b\"weatherCode\":2\x7d" =
      Except.ok (Json.obj [("weatherCode", Json.num 2)]) ∧
    getWeather parseScenario (S3GetResult.success "\x7b\"weatherCode\":2\x7d") =
      ⟨200, Json.obj [("weatherCode", Json.num 2)]⟩ :=
  ⟨rfl, weather_ok_of_stored_json parseScenario "\x7b\"weatherCode\":2\x7d"
    (Json.obj [("weatherCode", Json.num 2)]) rfl⟩

/-- Claim C2: for every email string containing `@`, when the store write
succeeds, `POST /subscribe` returns 201 and issues exactly one write, at key
`subscribers/` ++ sanitize(email), with content-type `text/plain` and the
original unsanitized email as content. -/
theorem subscribe_valid_writes (bucket e : String) (h : includesAt e = true) :
    subscribe bucket (some e) S3PutResult.success =
      (⟨201, Json.obj [("message", Json.str "Subscription successful!")]⟩,
       some ⟨bucket, SUBSCRIPTIONS_PATH ++ sanitize e, e, "text/plain"⟩) := by
  have hne : e ≠ "" := includesAt_ne_empty e h
  simp [subscribe, h, hne]

theorem subscribe_valid_writes_witness :
    includesAt "a@b.com" = true ∧
    subscribe "daily-weather-output-mscac" (some "a@b.com") S3PutResult.success =
      (⟨201, Json.obj [("message", Json.str "Subscription successful!")]⟩,
       some ⟨"daily-weather-output-mscac", SUBSCRIPTIONS_PATH ++ sanitize "a@b.com",
             "a@b.com", "text/plain"⟩) :=
  ⟨by decide, subscribe_valid_writes "daily-weather-output-mscac" "a@b.com" (by decide)⟩

/-- Claim C3: when the email field is absent, or is a string not containing `@`
(the empty string included), `POST /subscribe` returns 400 and issues no store
write, whatever the store would have answered. -/
theorem subscribe_invalid_no_write (bucket : String) (put : S3PutResult)
    (email : Option String)
    (h : email = none ∨ ∃ e, email = some e ∧ includesAt e = false) :
    subscribe bucket email put =
      (⟨400, Json.obj [("message", Json.str "Invalid email address provided.")]⟩,
       none) := by
  rcases h with h | ⟨e, rfl, he⟩
  · subst h
    rfl
  · simp [subscribe, he]

theorem subscribe_invalid_no_write_witness :
    ((some "not-an-email" : Option String) = none ∨
      ∃ e, (some "not-an-email" : Option String) = some e ∧ includesAt e = false) ∧
    subscribe "daily-weather-output-mscac" (some "not-an-email") S3PutResult.success =
      (⟨400, Json.obj [("message", Json.str "Invalid email address provided.")]⟩,
       none) :=
  ⟨Or.inr ⟨"not-an-email", rfl, by decide⟩,
   subscribe_invalid_no_write "daily-weather-output-mscac" S3PutResult.success
     (some "not-an-email") (Or.inr ⟨"not-an-email", rfl, by decide⟩)⟩

/-- Claim C4: the sanitizer is idempotent, and sanitizing is exactly filtering
the characters of the input through the allowed class, preserving order (its
determinism is inherent in its being a pure function of its argument). -/
theorem sanitize_idem_and_filter (e : String) :
    sanitize (sanitize e) = sanitize e ∧
    (sanitize e).data = e.data.filter isAllowedChar := by
  refine ⟨?_, rfl⟩
  show String.mk ((e.data.filter isAllowedChar).filter isAllowedChar) = _
  rw [filter_allowed_idem]
  rfl

/-- Claim C5: when no object exists at the weather key — the store throws its
`NoSuchKey` error — `GET /weather` returns 404 with the documented message. -/
theorem weather_notFound_404 (parseJson : String → Except String Json) :
    getWeather parseJson S3GetResult.noSuchKey =
      ⟨404, Json.obj [("message", Json.str "Weather prediction file not found.")]⟩ :=
  rfl

/-- Claim C6: on any `GET /weather` failure other than `NoSuchKey` — a store
error with message `storeMsg`, or stored content on which `JSON.parse` throws
with message `parseMsg` — the handler returns 500 with the `message` field and
the diagnostic `error` field populated. -/
theorem weather_failure_500 (parseJson : String → Except String Json)
    (storeMsg s parseMsg : String) (h : parseJson s = Except.error parseMsg) :
    getWeather parseJson (S3GetResult.otherError storeMsg) =
      ⟨500, Json.obj [("message", Json.str "Failed to fetch weather data."),
                      ("error", Json.str storeMsg)]⟩ ∧
    getWeather parseJson (S3GetResult.success s) =
      ⟨500, Json.obj [("message", Json.str "Failed to fetch weather data."),
                      ("error", Json.str parseMsg)]⟩ := by
  refine ⟨rfl, ?_⟩
  simp [getWeather, h]

theorem weather_failure_500_witness :
    parseScenario "nonsense" = Except.error "Unexpected token" ∧
    getWeather parseScenario (S3GetResult.otherError "connect ETIMEDOUT") =
      ⟨500, Json.obj [("message", Json.str "Failed to fetch weather data."),
                      ("error", Json.str "connect ETIMEDOUT")]⟩ ∧
    getWeather parseScenario (S3GetResult.success "nonsense") =
      ⟨500, Json.obj [("message", Json.str "Failed to fetch weather data."),
                      ("error", Json.str "Unexpected token")]⟩ :=
  ⟨rfl,
   (weather_failure_500 parseScenario "connect ETIMEDOUT" "nonsense"
      "Unexpected token" rfl).1,
   (weather_failure_500 parseScenario "connect ETIMEDOUT" "nonsense"
      "Unexpected token" rfl).2⟩

/-- Claim C7: every completed request carries a documented status code —
`GET /weather` only ever answers 200, 404 or 500, and `POST /subscribe` only
ever answers 400, 201 or 500 — whatever the store, the parser and the input do. -/
theorem observed_statuses_documented (parseJson : String → Except String Json)
    (s3 : S3GetResult) (bucket : String) (email : Option String)
    (put : S3PutResult) :
    ((getWeather parseJson s3).status = 200 ∨ (getWeather parseJson s3).status = 404 ∨
      (getWeather parseJson s3).status = 500) ∧
    ((subscribe bucket email put).1.status = 400 ∨
      (subscribe bucket email put).1.status = 201 ∨
      (subscribe bucket email put).1.status = 500) := by
  constructor
  · cases s3 with
    | success s =>
      cases h : parseJson s <;> simp [getWeather, h]
    | noSuchKey => simp [getWeather]
    | otherError m => simp [getWeather]
  · cases email with
    | none => simp [subscribe]
    | some e =>
      by_cases h : (e = "" || !(includesAt e)) = true
      · simp [subscribe, h]
      · cases put <;> simp [subscribe, h]

/-- Counterexample to claim C8: an environment variable that is set to the
empty string is set, yet its value is not used — JavaScript `||` treats the
empty string as falsy, so the default wins. -/
theorem config_set_value_cex :
    S3_BUCKET_NAME (some "") ≠ "" ∧
    S3_BUCKET_NAME (some "") = "daily-weather-output-mscac" := by
  constructor <;> decide

/-- Claim C8 as amended: when the environment variables are unset the defaults
are bucket `daily-weather-output-mscac`, region `us-east-2` and port 3000; when
a variable is set to a non-empty string, that value is used instead. -/
theorem config_defaults_amended (v : String) (hv : v ≠ "") :
    S3_BUCKET_NAME none = "daily-weather-output-mscac" ∧
    S3_REGION none = "us-east-2" ∧
    PORT none = Sum.inr 3000 ∧
    S3_BUCKET_NAME (some v) = v ∧
    S3_REGION (some v) = v ∧
    PORT (some v) = Sum.inl v := by
  refine ⟨rfl, rfl, rfl, ?_, ?_, ?_⟩ <;>
    simp [S3_BUCKET_NAME, S3_REGION, PORT, jsOrString, hv]

theorem config_defaults_amended_witness :
    ("my-bucket" : String) ≠ "" ∧
    (S3_BUCKET_NAME none = "daily-weather-output-mscac" ∧
     S3_REGION none = "us-east-2" ∧
     PORT none = Sum.inr 3000 ∧
     S3_BUCKET_NAME (some "my-bucket") = "my-bucket" ∧
     S3_REGION (some "my-bucket") = "my-bucket" ∧
     PORT (some "my-bucket") = Sum.inl "my-bucket") :=
  ⟨by decide, config_defaults_amended "my-bucket" (by decide)⟩

/-- Claim C9: validation tests nothing but non-emptiness and the presence of
`@` — for a present string field it is exactly the `@`-containment test (the
two coincide, since a string containing `@` is non-empty) — so the single
character `@` passes and is written at key `subscribers/@`. -/
theorem validation_only_checks_at (b e : String) :
    validEmail (some e) = includesAt e ∧
    subscribe b (some "@") S3PutResult.success =
      (⟨201, Json.obj [("message", Json.str "Subscription successful!")]⟩,
       some ⟨b, "subscribers/@", "@", "text/plain"⟩) := by
  constructor
  · by_cases he : e = ""
    · subst he
      decide
    · simp [validEmail, he]
  · rfl

/-- Claim C10: every accepted email sanitizes to a string still containing `@`
and hence non-empty, so the written key strictly extends `subscribers/` and is
never the weather key `daily-data/prediction.json`. -/
theorem subscribe_key_disjoint_weather (b e : String)
    (h : validEmail (some e) = true) :
    '@' ∈ (sanitize e).data ∧
    sanitize e ≠ "" ∧
    (subscribe b (some e) S3PutResult.success).2 =
      some ⟨b, SUBSCRIPTIONS_PATH ++ sanitize e, e, "text/plain"⟩ ∧
    SUBSCRIPTIONS_PATH ++ sanitize e ≠ WEATHER_FILE_KEY := by
  have hat : includesAt e = true := by
    by_cases he : e = ""
    · subst he
      exact absurd h (by decide)
    · simpa [validEmail, he] using h
  have hne : e ≠ "" := includesAt_ne_empty e hat
  refine ⟨at_mem_sanitize e hat, sanitize_ne_empty e hat, ?_, sub_key_ne_weather _⟩
  simp [subscribe, hat, hne]

theorem subscribe_key_disjoint_weather_witness :
    validEmail (some "a@b.com") = true ∧
    ('@' ∈ (sanitize "a@b.com").data ∧
     sanitize "a@b.com" ≠ "" ∧
     (subscribe "daily-weather-output-mscac" (some "a@b.com") S3PutResult.success).2 =
       some ⟨"daily-weather-output-mscac", SUBSCRIPTIONS_PATH ++ sanitize "a@b.com",
             "a@b.com", "text/plain"⟩ ∧
     SUBSCRIPTIONS_PATH ++ sanitize "a@b.com" ≠ WEATHER_FILE_KEY) :=
  ⟨by decide,
   subscribe_key_disjoint_weather "daily-weather-output-mscac" "a@b.com" (by decide)⟩
